import Mathlib

/-!
Shallow embedding of the terrain-aware location placement engine of
`src/components/MapMakerDashboard.tsx`:

* `analyzeTerrainForPlacement` (source lines 387–455): samples a raster
  image on a fixed 20-unit grid, scores each sample from its pixel's
  colour/brightness, collects water samples as avoid regions, keeps
  samples whose jittered score exceeds 40 and sorts them by score
  descending.
* `findOptimalPlacement` (source lines 458–519): picks a coordinate for a
  location of a given type, respecting an 80-unit minimum spacing to
  existing locations and the avoid regions, falling back to randomized
  placement when terrain data is absent or exhausted.

Modelling conventions:

* JavaScript numbers are modelled as rationals (`ℚ`); pixel channels,
  which come from a `Uint8ClampedArray`, as naturals.
* Each call to `Math.random()` consumes one element of an explicit list
  of draws `rs : List ℚ` from the front (`rs.headD 0`, then `rs.tail`);
  a real run always has draws in `[0, 1)`, which theorems assume as a
  hypothesis where it matters.  An exhausted list yields the draw `0`,
  which also lies in `[0, 1)`.
* `Math.sqrt d < c` (with `d` a sum of squares, hence `d ≥ 0`) is encoded
  as `sqrtLt d c`, i.e. `0 < c ∧ d < c ^ 2`, which is equivalent for real
  square roots since both sides of the comparison are monotone.
-/

/-- One RGBA pixel of the raster surface (the alpha channel is never read
by the engine, so it is omitted). -/
structure Pixel where
  r : ℕ
  g : ℕ
  b : ℕ
  deriving DecidableEq, Repr

/-- The raster surface: pixel lookup by `(x, y)` coordinate, as read off
`imageData.data[(y * width + x) * 4 .. + 2]`. -/
abbrev Surface := ℕ → ℕ → Pixel

/-- An entry of `suitableAreas`.  The analyzer produces integer grid
coordinates, but the selector does rational arithmetic on them, so the
coordinates are stored as rationals. -/
structure SuitabilityPoint where
  x : ℚ
  y : ℚ
  score : ℚ
  deriving DecidableEq, Repr

/-- An entry of `avoidAreas`: a disc to exclude from placement. -/
structure AvoidRegion where
  x : ℚ
  y : ℚ
  radius : ℚ
  deriving DecidableEq, Repr

/-- An already placed location; the engine only reads its coordinates. -/
structure MapLocation where
  x : ℚ
  y : ℚ
  deriving DecidableEq, Repr

/-- The pair returned by the terrain analyzer and consumed by the
placement selector. -/
structure Analysis where
  suitableAreas : List SuitabilityPoint
  avoidAreas : List AvoidRegion
  deriving DecidableEq, Repr

/-- Map bounds (`mapSettings.width` / `mapSettings.height`). -/
structure Bounds where
  width : ℚ
  height : ℚ
  deriving DecidableEq, Repr

/-- A returned placement coordinate. -/
structure Point where
  x : ℚ
  y : ℚ
  deriving DecidableEq, Repr

/-- `const sampleSize = 20` (source line 411). -/
def sampleSize : ℕ := 20

/-- The values taken by `for (let x = sampleSize; x < w - sampleSize;
x += sampleSize)`: multiples of `sampleSize` that are at least
`sampleSize` and less than `w - sampleSize`, in increasing order. -/
def sampleCoords (w : ℕ) : List ℕ :=
  (List.range w).filter fun x =>
    decide (sampleSize ≤ x) && decide (x < w - sampleSize) && decide (x % sampleSize = 0)

/-- The sample grid walked by the analyzer's nested loops (source lines
412–413): outer loop over `x`, inner loop over `y`. -/
def samplePts (w h : ℕ) : List (ℕ × ℕ) :=
  (sampleCoords w).flatMap fun x => (sampleCoords h).map fun y => (x, y)

/-- `brightness = (r + g + b) / 3` (source line 420). -/
def brightness (p : Pixel) : ℚ :=
  ((p.r : ℚ) + p.g + p.b) / 3

/-- `isWater = b > r + 30 && b > g + 30` (source line 421). -/
def isWater (p : Pixel) : Bool :=
  decide (p.b > p.r + 30) && decide (p.b > p.g + 30)

/-- `isVeryDark = brightness < 50` (source line 422). -/
def isVeryDark (p : Pixel) : Bool :=
  decide (brightness p < 50)

/-- `isVeryBright = brightness > 200` (source line 423). -/
def isVeryBright (p : Pixel) : Bool :=
  decide (brightness p > 200)

/-- The sample's score before the random jitter (source lines 426–440):
base 100; water −80, else very dark −60, else very bright −20; plus 30
for moderate brightness in `[80, 160]`. -/
def scorePre (p : Pixel) : ℚ :=
  let score : ℚ := 100
  let score :=
    if isWater p then score - 80
    else if isVeryDark p then score - 60
    else if isVeryBright p then score - 20
    else score
  if 80 ≤ brightness p ∧ brightness p ≤ 160 then score + 30 else score

/-- The analyzer's sampling loop (source lines 412–449).  Each sample
consumes exactly one random draw for the jitter
`score += Math.random() * 20 - 10`; a water sample additionally pushes an
avoid region of radius 30; a sample is kept when its jittered score
exceeds 40. -/
def analyzeLoop (surf : Surface) :
    List (ℕ × ℕ) → List ℚ → List SuitabilityPoint × List AvoidRegion
  | [], _ => ([], [])
  | (x, y) :: pts, rs =>
    let p := surf x y
    let score := scorePre p + (rs.headD 0 * 20 - 10)
    let rest := analyzeLoop surf pts rs.tail
    ((if score > 40 then ⟨(x : ℚ), (y : ℚ), score⟩ :: rest.1 else rest.1),
     (if isWater p then ⟨(x : ℚ), (y : ℚ), 30⟩ :: rest.2 else rest.2))

/-- The descending-score order used by
`suitableAreas.sort((a, b) => b.score - a.score)` (source line 452). -/
def scoreGE (a b : SuitabilityPoint) : Prop :=
  b.score ≤ a.score

instance : DecidableRel scoreGE := fun a b =>
  inferInstanceAs (Decidable (b.score ≤ a.score))

instance : IsTotal SuitabilityPoint scoreGE :=
  ⟨fun a b => (le_total b.score a.score).imp id id⟩

instance : IsTrans SuitabilityPoint scoreGE :=
  ⟨fun _ _ _ h1 h2 => le_trans h2 h1⟩

/-- `suitableAreas.sort((a, b) => b.score - a.score)`: sort by score
descending (tie order is implementation-defined). -/
def sortByScoreDesc (l : List SuitabilityPoint) : List SuitabilityPoint :=
  List.insertionSort scoreGE l

/-- `analyzeTerrainForPlacement` (source lines 387–455).  Without a
terrain image both sequences are empty; otherwise the sample grid of the
map's dimensions is scored and the kept points are sorted by score
descending. -/
def analyzeTerrainForPlacement (surface : Option Surface) (w h : ℕ) (rs : List ℚ) :
    List SuitabilityPoint × List AvoidRegion :=
  match surface with
  | none => ([], [])
  | some surf =>
    let res := analyzeLoop surf (samplePts w h) rs
    (sortByScoreDesc res.1, res.2)

/-- Squared Euclidean distance, `(x1 - x2) ** 2 + (y1 - y2) ** 2`. -/
def distSq (x1 y1 x2 y2 : ℚ) : ℚ :=
  (x1 - x2) ^ 2 + (y1 - y2) ^ 2

/-- Encodes `Math.sqrt d < c` for `d ≥ 0` (here `d` is always a sum of
squares): the square root of a nonnegative `d` is below `c` exactly when
`c` is positive and `d < c ^ 2`. -/
def sqrtLt (d c : ℚ) : Bool :=
  decide (0 < c) && decide (d < c ^ 2)

/-- `existingLocations.some(loc => dist(loc, (x,y)) < 80)` (source lines
469–472 and 495–498). -/
def tooCloseTo (existing : List MapLocation) (x y : ℚ) : Bool :=
  existing.any fun loc => sqrtLt (distSq loc.x loc.y x y) 80

/-- `avoidAreas.some(avoid => dist(avoid, area) < avoid.radius)` (source
lines 501–504). -/
def inAvoidAreaAt (avoidAreas : List AvoidRegion) (x y : ℚ) : Bool :=
  avoidAreas.any fun a => sqrtLt (distSq a.x a.y x y) a.radius

/-- The type-specific bonus (source lines 485–490): five successive `if`
statements assigning `typeBonus`; their conditions are mutually exclusive
in `locationType`, so later assignments only overwrite the initial 0. -/
def typeBonus (locationType : String) (score : ℚ) : ℚ :=
  let tb : ℚ := 0
  let tb := if locationType = "landmark" ∧ score > 80 then 20 else tb
  let tb := if locationType = "shop" ∧ score > 60 ∧ score < 90 then 15 else tb
  let tb := if locationType = "mission" ∧ score > 70 then 10 else tb
  let tb := if locationType = "resource" ∧ score > 50 then 25 else tb
  if locationType = "npc" ∧ score > 60 then 15 else tb

/-- One random draw of a coordinate pair,
`{x: Math.random() * (width - 100) + 50, y: Math.random() * (height - 100) + 50}`
(source lines 465–466, 479 and 518); consumes two draws, `x` first. -/
def randomDraw (b : Bounds) (rs : List ℚ) : Point :=
  ⟨rs.headD 0 * (b.width - 100) + 50, rs.tail.headD 0 * (b.height - 100) + 50⟩

/-- The no-terrain placement loop (source lines 463–479): up to `fuel`
attempts draw a random point and accept it when it is not within 80 units
of an existing location; when the fuel runs out, one final unconstrained
draw is returned.  `findOptimalPlacement` starts it with `fuel = 50`. -/
def randomAttempts (existing : List MapLocation) (b : Bounds) :
    ℕ → List ℚ → Point
  | 0, rs => randomDraw b rs
  | fuel + 1, rs =>
    let pt := randomDraw b rs
    if tooCloseTo existing pt.x pt.y then
      randomAttempts existing b fuel rs.tail.tail
    else pt

/-- `Math.max(lo, Math.min(hi, v))` (source lines 511–512). -/
def clampCoord (lo hi v : ℚ) : ℚ :=
  max lo (min hi v)

/-- The terrain-guided loop over `suitableAreas` (source lines 483–515):
the first candidate that is not too close to an existing location, not
inside an avoid region, and whose bonus-adjusted score exceeds 50 is
returned, perturbed by `(Math.random() - 0.5) * 40` on each axis and
clamped into `[50, width - 50] × [50, height - 50]`.  Rejected candidates
consume no random draws; exhaustion falls back to an unconstrained random
draw. -/
def placeLoop (locationType : String) (existing : List MapLocation)
    (avoidAreas : List AvoidRegion) (b : Bounds) :
    List SuitabilityPoint → List ℚ → Point
  | [], rs => randomDraw b rs
  | area :: rest, rs =>
    let finalScore := area.score + typeBonus locationType area.score
    if !tooCloseTo existing area.x area.y
        && !inAvoidAreaAt avoidAreas area.x area.y
        && decide (finalScore > 50) then
      let offsetX := (rs.headD 0 - 1 / 2) * 40
      let offsetY := (rs.tail.headD 0 - 1 / 2) * 40
      ⟨clampCoord 50 (b.width - 50) (area.x + offsetX),
       clampCoord 50 (b.height - 50) (area.y + offsetY)⟩
    else placeLoop locationType existing avoidAreas b rest rs

/-- `findOptimalPlacement` (source lines 458–519): with no suitable areas
it runs the bounded random-attempt loop (50 attempts, then a final
unconstrained draw); otherwise it scans `suitableAreas` in the given
order. -/
def findOptimalPlacement (locationType : String) (existingLocations : List MapLocation)
    (terrainAnalysis : Analysis) (b : Bounds) (rs : List ℚ) : Point :=
  if terrainAnalysis.suitableAreas.length = 0 then
    randomAttempts existingLocations b 50 rs
  else
    placeLoop locationType existingLocations terrainAnalysis.avoidAreas b
      terrainAnalysis.suitableAreas rs

/-- A surface every pixel of which is the uniform mid-gray 120. -/
def graySurface : Surface := fun _ _ => ⟨120, 120, 120⟩

/-- A surface every pixel of which is pure deep blue. -/
def blueSurface : Surface := fun _ _ => ⟨0, 0, 255⟩

/-- The avoid regions collected by the sampling loop are exactly the
water-classified sample points, in grid order, each with radius 30; the
random draws play no part in them. -/
theorem analyzeLoop_snd (surf : Surface) (pts : List (ℕ × ℕ)) (rs : List ℚ) :
    (analyzeLoop surf pts rs).2 =
      (pts.filter fun q => isWater (surf q.1 q.2)).map
        fun q => (⟨(q.1 : ℚ), (q.2 : ℚ), 30⟩ : AvoidRegion) := by
  induction pts generalizing rs with
  | nil => rfl
  | cons q pts ih =>
    obtain ⟨x, y⟩ := q
    by_cases hw : isWater (surf x y) = true <;>
      simp [analyzeLoop, List.filter_cons, hw, ih]

/-- The `avoidAreas` component of a full analysis run is exactly the
water-classified sample points mapped to radius-30 regions. -/
theorem analyzeTerrain_snd_eq (surf : Surface) (w h : ℕ) (rs : List ℚ) :
    (analyzeTerrainForPlacement (some surf) w h rs).2 =
      ((samplePts w h).filter fun q => isWater (surf q.1 q.2)).map
        fun q => (⟨(q.1 : ℚ), (q.2 : ℚ), 30⟩ : AvoidRegion) := by
  simpa [analyzeTerrainForPlacement] using analyzeLoop_snd surf (samplePts w h) rs

/-- C6: every `AvoidRegion` returned by `analyzeTerrainForPlacement` is
centered at a sampled grid point whose pixel is classified as water
(`isWater`: blue exceeds both red and green by more than 30) and has
radius exactly 30, and conversely every water-classified sample point
emits exactly one such region: the returned `avoidAreas` list is exactly
the water-classified sample points mapped to radius-30 regions. -/
theorem avoidAreas_exactly_water_samples (surf : Surface) (w h : ℕ) (rs : List ℚ) :
    (analyzeTerrainForPlacement (some surf) w h rs).2 =
      ((samplePts w h).filter fun q => isWater (surf q.1 q.2)).map
        fun q => (⟨(q.1 : ℚ), (q.2 : ℚ), 30⟩ : AvoidRegion) :=
  analyzeTerrain_snd_eq surf w h rs

/-- C5: the `suitableAreas` sequence returned by
`analyzeTerrainForPlacement` is sorted in descending order of score: for
all indices `i < j` into the returned list, the score at `i` is at least
the score at `j`. -/
theorem suitableAreas_sorted_desc (surface : Option Surface) (w h : ℕ) (rs : List ℚ)
    (i j : ℕ) (hij : i < j)
    (hj : j < (analyzeTerrainForPlacement surface w h rs).1.length) :
    ((analyzeTerrainForPlacement surface w h rs).1.getD j ⟨0, 0, 0⟩).score ≤
      ((analyzeTerrainForPlacement surface w h rs).1.getD i ⟨0, 0, 0⟩).score := by
  match surface with
  | none => simp [analyzeTerrainForPlacement] at hj
  | some surf =>
    have hi : i < (analyzeTerrainForPlacement (some surf) w h rs).1.length :=
      lt_trans hij hj
    rw [List.getD_eq_get _ _ hj, List.getD_eq_get _ _ hi]
    have hs : (analyzeTerrainForPlacement (some surf) w h rs).1.Sorted scoreGE := by
      simpa [analyzeTerrainForPlacement, sortByScoreDesc] using
        List.sorted_insertionSort scoreGE (analyzeLoop surf (samplePts w h) rs).1
    exact hs.rel_get_of_lt hij

/-- Evaluation of the analyzer on the mid-gray surface at 80×80 with four
zero draws: four samples, each scoring 130 − 10 = 120, and no avoid
areas. -/
theorem gray80_eval :
    analyzeTerrainForPlacement (some graySurface) 80 80 [0, 0, 0, 0] =
      ([⟨20, 20, 120⟩, ⟨20, 40, 120⟩, ⟨40, 20, 120⟩, ⟨40, 40, 120⟩], []) := by
  have h : samplePts 80 80 = [(20, 20), (20, 40), (40, 20), (40, 40)] := by decide
  norm_num [analyzeTerrainForPlacement, h, analyzeLoop, graySurface, scorePre,
    brightness, isWater, isVeryDark, isVeryBright, sortByScoreDesc,
    List.insertionSort, List.orderedInsert, scoreGE]

/-- Witness for C5 at a concrete analysis with four suitable entries. -/
theorem suitableAreas_sorted_desc_witness :
    (0 < 1 ∧
      1 < (analyzeTerrainForPlacement (some graySurface) 80 80 [0, 0, 0, 0]).1.length) ∧
    ((analyzeTerrainForPlacement (some graySurface) 80 80 [0, 0, 0, 0]).1.getD 1
        ⟨0, 0, 0⟩).score ≤
      ((analyzeTerrainForPlacement (some graySurface) 80 80 [0, 0, 0, 0]).1.getD 0
        ⟨0, 0, 0⟩).score :=
  ⟨⟨by decide, by simp [gray80_eval]⟩,
    suitableAreas_sorted_desc (some graySurface) 80 80 [0, 0, 0, 0] 0 1 (by decide)
      (by simp [gray80_eval])⟩

/-- Unfolding the sampling loop at a sample whose jittered score exceeds
40: the sample is kept. -/
theorem analyzeLoop_fst_cons_kept (surf : Surface) (x y : ℕ) (pts : List (ℕ × ℕ))
    (rs : List ℚ) (hk : scorePre (surf x y) + (rs.headD 0 * 20 - 10) > 40) :
    (analyzeLoop surf ((x, y) :: pts) rs).1 =
      ⟨(x : ℚ), (y : ℚ), scorePre (surf x y) + (rs.headD 0 * 20 - 10)⟩ ::
        (analyzeLoop surf pts rs.tail).1 := by
  simp only [analyzeLoop]
  rw [if_pos hk]

/-- If every sample's score stays above 40 for every draw the loop can
consume (an element of `rs`, or the default 0 once the list is
exhausted), the sampling loop keeps every sample. -/
theorem analyzeLoop_fst_length_of_kept (surf : Surface) (pts : List (ℕ × ℕ)) (rs : List ℚ)
    (h : ∀ q ∈ pts, ∀ r : ℚ, (r ∈ rs ∨ r = 0) →
      scorePre (surf q.1 q.2) + (r * 20 - 10) > 40) :
    (analyzeLoop surf pts rs).1.length = pts.length := by
  induction pts generalizing rs with
  | nil => rfl
  | cons q pts ih =>
    obtain ⟨x, y⟩ := q
    have hd : rs.headD 0 ∈ rs ∨ rs.headD 0 = 0 := by cases rs <;> simp
    have hk : scorePre (surf x y) + (rs.headD 0 * 20 - 10) > 40 :=
      h (x, y) (by simp) _ hd
    have htail : ∀ q ∈ pts, ∀ r : ℚ, (r ∈ rs.tail ∨ r = 0) →
        scorePre (surf q.1 q.2) + (r * 20 - 10) > 40 := by
      intro q hq r hr
      exact h q (List.mem_cons_of_mem _ hq) r
        (hr.imp (fun hm => List.mem_of_mem_tail hm) id)
    rw [analyzeLoop_fst_cons_kept surf x y pts rs hk]
    simp [ih rs.tail htail]

/-- As long as the draw list is at least as long as the sample list, if
every sample's score stays above 40 for every draw in the list, the
sampling loop keeps every sample. -/
theorem analyzeLoop_fst_length_of_kept_mem (surf : Surface) (pts : List (ℕ × ℕ))
    (rs : List ℚ) (hlen : pts.length ≤ rs.length)
    (h : ∀ q ∈ pts, ∀ r ∈ rs, scorePre (surf q.1 q.2) + (r * 20 - 10) > 40) :
    (analyzeLoop surf pts rs).1.length = pts.length := by
  induction pts generalizing rs with
  | nil => rfl
  | cons q pts ih =>
    obtain ⟨x, y⟩ := q
    cases rs with
    | nil => simp at hlen
    | cons a t =>
      have hk : scorePre (surf x y) + (a * 20 - 10) > 40 :=
        h (x, y) (by simp) a (by simp)
      have htail : ∀ q ∈ pts, ∀ r ∈ t, scorePre (surf q.1 q.2) + (r * 20 - 10) > 40 :=
        fun q hq r hr => h q (by simp [hq]) r (by simp [hr])
      have hlen' : pts.length ≤ t.length := by simpa using hlen
      rw [analyzeLoop_fst_cons_kept surf x y pts (a :: t) hk]
      simp [ih t hlen' htail]

/-- C8: on a raster surface that is uniformly mid-gray with brightness
120 (r = g = b = 120), every sample's pre-jitter score is 130 (no
penalty applies and the +30 moderate-brightness bonus applies), which is
at least 100; every sample passes the >40 keep threshold for every jitter
outcome drawn from `[0, 1)`, so `suitableAreas` has exactly one entry per
sample-grid point and `avoidAreas` is empty. -/
theorem gray_surface_full_grid (surf : Surface) (w h : ℕ) (rs : List ℚ)
    (hsurf : ∀ x y, surf x y = ⟨120, 120, 120⟩)
    (hr : ∀ r ∈ rs, 0 ≤ r ∧ r < 1) :
    scorePre ⟨120, 120, 120⟩ = 130 ∧ (100 : ℚ) ≤ 130 ∧
    (analyzeTerrainForPlacement (some surf) w h rs).1.length = (samplePts w h).length ∧
    (analyzeTerrainForPlacement (some surf) w h rs).2 = [] := by
  have hpre : scorePre (⟨120, 120, 120⟩ : Pixel) = 130 := by
    norm_num [scorePre, brightness, isWater, isVeryDark, isVeryBright]
  refine ⟨hpre, by norm_num, ?_, ?_⟩
  · have hlen := analyzeLoop_fst_length_of_kept surf (samplePts w h) rs ?_
    · simpa [analyzeTerrainForPlacement, sortByScoreDesc,
        List.length_insertionSort] using hlen
    · intro q _ r hmem
      have hr0 : 0 ≤ r := by
        rcases hmem with hm | hm
        · exact (hr r hm).1
        · simp [hm]
      rw [hsurf q.1 q.2, hpre]
      nlinarith
  · rw [analyzeTerrain_snd_eq surf w h rs]
    have : ∀ q ∈ samplePts w h, ¬ (isWater (surf q.1 q.2) = true) := by
      intro q _
      rw [hsurf q.1 q.2]
      decide
    simp [List.filter_eq_nil.mpr this]

/-- Witness for C8 on the concrete mid-gray surface at 80×80 with four
draws. -/
theorem gray_surface_full_grid_witness :
    ((∀ x y, graySurface x y = ⟨120, 120, 120⟩) ∧
      (∀ r ∈ ([0, 0, 0, 0] : List ℚ), 0 ≤ r ∧ r < 1)) ∧
    (scorePre ⟨120, 120, 120⟩ = 130 ∧ (100 : ℚ) ≤ 130 ∧
      (analyzeTerrainForPlacement (some graySurface) 80 80 [0, 0, 0, 0]).1.length =
        (samplePts 80 80).length ∧
      (analyzeTerrainForPlacement (some graySurface) 80 80 [0, 0, 0, 0]).2 = []) :=
  ⟨⟨fun _ _ => rfl, by norm_num⟩,
    gray_surface_full_grid graySurface 80 80 [0, 0, 0, 0] (fun _ _ => rfl)
      (by norm_num)⟩

/-- Evaluation of the analyzer on the pure deep-blue surface at 100×100
with nine draws of 1/2 (zero jitter): all nine samples are water, all
nine are kept with score 50 = 100 − 80 + 30. -/
theorem blue100_eval :
    analyzeTerrainForPlacement (some blueSurface) 100 100 (List.replicate 9 (1 / 2)) =
      ([⟨20, 20, 50⟩, ⟨20, 40, 50⟩, ⟨20, 60, 50⟩, ⟨40, 20, 50⟩, ⟨40, 40, 50⟩,
        ⟨40, 60, 50⟩, ⟨60, 20, 50⟩, ⟨60, 40, 50⟩, ⟨60, 60, 50⟩],
       [⟨20, 20, 30⟩, ⟨20, 40, 30⟩, ⟨20, 60, 30⟩, ⟨40, 20, 30⟩, ⟨40, 40, 30⟩,
        ⟨40, 60, 30⟩, ⟨60, 20, 30⟩, ⟨60, 40, 30⟩, ⟨60, 60, 30⟩]) := by
  have h : samplePts 100 100 =
      [(20, 20), (20, 40), (20, 60), (40, 20), (40, 40), (40, 60), (60, 20),
        (60, 40), (60, 60)] := by decide
  norm_num [analyzeTerrainForPlacement, h, analyzeLoop, blueSurface, scorePre,
    brightness, isWater, isVeryDark, isVeryBright, sortByScoreDesc,
    List.insertionSort, List.orderedInsert, scoreGE, List.replicate]

/-- C2, counterexample: on the canonical deep-blue surface (every pixel
r = 0, g = 0, b = 255) every sample is flagged water and `avoidAreas` has
one radius-30 entry per grid point — but `suitableAreas` is NOT mostly
empty: the pixel's brightness is 85, so the +30 moderate-brightness bonus
applies on top of the −80 water penalty, the pre-jitter score is 50
rather than about 20, and with zero jitter every one of the nine grid
samples is kept with score 50 > 40. -/
theorem blue_surface_counterexample :
    (∀ x y, isWater (blueSurface x y) = true) ∧
    (samplePts 100 100).length = 9 ∧
    (analyzeTerrainForPlacement (some blueSurface) 100 100
        (List.replicate 9 (1 / 2))).2.length = 9 ∧
    (∀ a ∈ (analyzeTerrainForPlacement (some blueSurface) 100 100
        (List.replicate 9 (1 / 2))).2, a.radius = 30) ∧
    (analyzeTerrainForPlacement (some blueSurface) 100 100
        (List.replicate 9 (1 / 2))).1.length = 9 ∧
    (∀ a ∈ (analyzeTerrainForPlacement (some blueSurface) 100 100
        (List.replicate 9 (1 / 2))).1, a.score = 50 ∧ ¬ a.score ≤ 40) := by
  refine ⟨fun x y => rfl, by decide, ?_, ?_, ?_, ?_⟩ <;>
    simp only [blue100_eval]
  · rfl
  · intro a ha
    simp only [List.mem_cons, List.not_mem_nil, or_false] at ha
    rcases ha with rfl | rfl | rfl | rfl | rfl | rfl | rfl | rfl | rfl <;> rfl
  · rfl
  · intro a ha
    simp only [List.mem_cons, List.not_mem_nil, or_false] at ha
    rcases ha with rfl | rfl | rfl | rfl | rfl | rfl | rfl | rfl | rfl <;>
      exact ⟨rfl, by norm_num⟩

/-- C2, amended: on a raster surface every pixel of which is the
canonical deep blue (r = 0, g = 0, b = 255), every sample is flagged as
water and `avoidAreas` has exactly one radius-30 region per sample-grid
point; but since the pixel's brightness is 85 the +30
moderate-brightness bonus applies on top of the −80 water penalty, the
pre-jitter score is 50 (not ≈ 20), and whenever the draw list covers the
grid with positive draws below 1 every sample is also kept, so
`suitableAreas` likewise has one entry per sample-grid point instead of
being mostly empty. -/
theorem blue_surface_amended (surf : Surface) (w h : ℕ) (rs : List ℚ)
    (hsurf : ∀ x y, surf x y = ⟨0, 0, 255⟩)
    (hlen : (samplePts w h).length ≤ rs.length)
    (hr : ∀ r ∈ rs, 0 < r ∧ r < 1) :
    (∀ x y, isWater (surf x y) = true) ∧
    scorePre ⟨0, 0, 255⟩ = 50 ∧
    (analyzeTerrainForPlacement (some surf) w h rs).2.length =
      (samplePts w h).length ∧
    (∀ a ∈ (analyzeTerrainForPlacement (some surf) w h rs).2, a.radius = 30) ∧
    (analyzeTerrainForPlacement (some surf) w h rs).1.length =
      (samplePts w h).length := by
  have hw : ∀ x y, isWater (surf x y) = true := fun x y => by rw [hsurf x y]; rfl
  have hpre : scorePre (⟨0, 0, 255⟩ : Pixel) = 50 := by
    norm_num [scorePre, brightness, isWater, isVeryDark, isVeryBright]
  have hfil : (samplePts w h).filter (fun q => isWater (surf q.1 q.2)) = samplePts w h :=
    List.filter_eq_self.mpr fun q _ => hw q.1 q.2
  refine ⟨hw, hpre, ?_, ?_, ?_⟩
  · rw [analyzeTerrain_snd_eq surf w h rs, hfil, List.length_map]
  · intro a ha
    rw [analyzeTerrain_snd_eq surf w h rs, hfil] at ha
    obtain ⟨q, -, rfl⟩ := List.mem_map.mp ha
    rfl
  · have hlem := analyzeLoop_fst_length_of_kept_mem surf (samplePts w h) rs hlen ?_
    · simpa [analyzeTerrainForPlacement, sortByScoreDesc,
        List.length_insertionSort] using hlem
    · intro q _ r hmem
      have hr0 : 0 < r := (hr r hmem).1
      rw [hsurf q.1 q.2, hpre]
      nlinarith

/-- Witness for the amended C2 on the concrete deep-blue surface at
60×60 with a single draw of 1/2. -/
theorem blue_surface_amended_witness :
    ((∀ x y, blueSurface x y = ⟨0, 0, 255⟩) ∧
      (samplePts 60 60).length ≤ ([(1 : ℚ) / 2]).length ∧
      (∀ r ∈ ([(1 : ℚ) / 2]), 0 < r ∧ r < 1)) ∧
    ((∀ x y, isWater (blueSurface x y) = true) ∧
      scorePre ⟨0, 0, 255⟩ = 50 ∧
      (analyzeTerrainForPlacement (some blueSurface) 60 60 [(1 : ℚ) / 2]).2.length =
        (samplePts 60 60).length ∧
      (∀ a ∈ (analyzeTerrainForPlacement (some blueSurface) 60 60 [(1 : ℚ) / 2]).2,
        a.radius = 30) ∧
      (analyzeTerrainForPlacement (some blueSurface) 60 60 [(1 : ℚ) / 2]).1.length =
        (samplePts 60 60).length) :=
  ⟨⟨fun _ _ => rfl, by decide, by norm_num⟩,
    blue_surface_amended blueSurface 60 60 [(1 : ℚ) / 2] (fun _ _ => rfl) (by decide)
      (by norm_num)⟩

/-- C10: the three penalties are an exclusive `else if` chain — water −80
takes priority over very-dark −60, which takes priority over very-bright
−20, and at most one applies — while the +30 moderate-brightness bonus is
evaluated independently and combines with any of them; consequently the
canonical deep-blue pixel (r = 0, g = 0, b = 255) is water with
brightness 85 in the moderate band, scores 50 before jitter, and with a
jitter draw of 9/10 its final score 58 exceeds the 40 keep threshold. -/
theorem score_penalty_priority_and_water_keepable :
    (∀ p : Pixel,
      scorePre p =
        100 -
          (if isWater p then 80
           else if isVeryDark p then 60
           else if isVeryBright p then 20
           else 0) +
          (if 80 ≤ brightness p ∧ brightness p ≤ 160 then 30 else 0)) ∧
    isWater ⟨0, 0, 255⟩ = true ∧
    (80 ≤ brightness ⟨0, 0, 255⟩ ∧ brightness ⟨0, 0, 255⟩ ≤ 160) ∧
    scorePre ⟨0, 0, 255⟩ = 50 ∧
    scorePre ⟨0, 0, 255⟩ + ((9 : ℚ) / 10 * 20 - 10) > 40 := by
  refine ⟨?_, rfl, ?_, ?_, ?_⟩
  · intro p
    unfold scorePre
    split_ifs <;> ring
  · constructor <;> norm_num [brightness]
  · norm_num [scorePre, brightness, isWater, isVeryDark, isVeryBright]
  · norm_num [scorePre, brightness, isWater, isVeryDark, isVeryBright]

/-- C7: the type-specific bonus added in the terrain-guided path is
exactly +20 for `landmark` when score > 80, +15 for `shop` when
60 < score < 90, +10 for `mission` when score > 70, +25 for `resource`
when score > 50, +15 for `npc` when score > 60, and 0 in every other
case. -/
theorem typeBonus_spec (t : String) (s : ℚ) :
    (typeBonus "landmark" s = if s > 80 then 20 else 0) ∧
    (typeBonus "shop" s = if 60 < s ∧ s < 90 then 15 else 0) ∧
    (typeBonus "mission" s = if s > 70 then 10 else 0) ∧
    (typeBonus "resource" s = if s > 50 then 25 else 0) ∧
    (typeBonus "npc" s = if s > 60 then 15 else 0) ∧
    (t ≠ "landmark" → t ≠ "shop" → t ≠ "mission" → t ≠ "resource" → t ≠ "npc" →
      typeBonus t s = 0) := by
  refine ⟨by simp [typeBonus], by simp [typeBonus], by simp [typeBonus],
    by simp [typeBonus], by simp [typeBonus], ?_⟩
  intro h1 h2 h3 h4 h5
  simp [typeBonus, h1, h2, h3, h4, h5]

/-- Witness for C7 at a type outside the five-element enumeration and at
a concrete landmark score. -/
theorem typeBonus_spec_witness :
    ("tavern" : String) ≠ "landmark" ∧ typeBonus "tavern" 55 = 0 :=
  ⟨by decide,
    (typeBonus_spec "tavern" 55).2.2.2.2.2 (by decide) (by decide) (by decide)
      (by decide) (by decide)⟩

/-- Unfolding one attempt of the no-terrain placement loop. -/
theorem randomAttempts_succ (existing : List MapLocation) (b : Bounds) (fuel : ℕ)
    (rs : List ℚ) :
    randomAttempts existing b (fuel + 1) rs =
      if tooCloseTo existing (randomDraw b rs).x (randomDraw b rs).y then
        randomAttempts existing b fuel rs.tail.tail
      else randomDraw b rs := rfl

/-- A random coordinate draw only reads the first two draws. -/
theorem randomDraw_take (b : Bounds) (rs : List ℚ) (n : ℕ) :
    randomDraw b (rs.take (n + 2)) = randomDraw b rs := by
  cases rs with
  | nil => rfl
  | cons a t => cases t <;> rfl

/-- Dropping two consumed draws commutes with truncating the list. -/
theorem take_tail_tail (rs : List ℚ) (m : ℕ) :
    (rs.take (m + 2)).tail.tail = rs.tail.tail.take m := by
  cases rs with
  | nil => simp
  | cons a t => cases t <;> simp [List.take_succ_cons]

/-- The head draw survives truncation. -/
theorem headD_take (rs : List ℚ) (n : ℕ) :
    (rs.take (n + 1)).headD 0 = rs.headD 0 := by
  cases rs <;> rfl

/-- The second draw survives truncation. -/
theorem tail_headD_take (rs : List ℚ) (n : ℕ) :
    (rs.take (n + 2)).tail.headD 0 = rs.tail.headD 0 := by
  cases rs with
  | nil => rfl
  | cons a t => cases t <;> rfl

/-- The no-terrain loop with `fuel` attempts reads at most
`2 * fuel + 2` draws: two per attempt plus two for the final
unconstrained draw. -/
theorem randomAttempts_take (existing : List MapLocation) (b : Bounds) (fuel : ℕ)
    (rs : List ℚ) :
    randomAttempts existing b fuel (rs.take (2 * fuel + 2)) =
      randomAttempts existing b fuel rs := by
  induction fuel generalizing rs with
  | zero => exact randomDraw_take b rs 0
  | succ n ih =>
    rw [show 2 * (n + 1) + 2 = 2 * n + 2 + 2 from by ring]
    rw [randomAttempts_succ, randomAttempts_succ, randomDraw_take b rs (2 * n + 2),
      take_tail_tail rs (2 * n + 2), ih rs.tail.tail]

/-- The terrain-guided loop reads at most two draws (for the jitter of
the accepted candidate, or for the final fallback draw). -/
theorem placeLoop_take (t : String) (ex : List MapLocation) (av : List AvoidRegion)
    (b : Bounds) (areas : List SuitabilityPoint) (rs : List ℚ) (n : ℕ) :
    placeLoop t ex av b areas (rs.take (n + 2)) = placeLoop t ex av b areas rs := by
  induction areas with
  | nil => exact randomDraw_take b rs n
  | cons area rest ih =>
    by_cases hc : (!tooCloseTo ex area.x area.y && !inAvoidAreaAt av area.x area.y &&
        decide (area.score + typeBonus t area.score > 50)) = true
    · simp only [placeLoop, hc, if_true, headD_take rs (n + 1),
        tail_headD_take rs n]
    · simp only [placeLoop, hc, if_false, Bool.false_eq_true, ih]

/-- `findOptimalPlacement` reads at most the first 102 random draws:
50 spacing-checked attempts of two draws each, plus one final
unconstrained two-draw fallback (or, on the terrain path, two jitter
draws). -/
theorem findOptimalPlacement_take_aux (t : String) (ex : List MapLocation)
    (an : Analysis) (b : Bounds) (rs : List ℚ) :
    findOptimalPlacement t ex an b (rs.take 102) = findOptimalPlacement t ex an b rs := by
  by_cases he : an.suitableAreas.length = 0
  · simp only [findOptimalPlacement, he, if_true]
    rw [show (102 : ℕ) = 2 * 50 + 2 from by norm_num]
    exact randomAttempts_take ex b 50 rs
  · simp only [findOptimalPlacement, he, if_false]
    rw [show (102 : ℕ) = 100 + 2 from by norm_num]
    exact placeLoop_take t ex an.avoidAreas b an.suitableAreas rs 100

/-- C4: `findOptimalPlacement` is a total function — it returns a
coordinate on every input (exhausted search is never surfaced as an
error, the result type is a bare coordinate, not a fallible one) — and
its randomized fallback is bounded by 50 attempts: the whole computation
is determined by at most the first 102 random draws (50 two-draw
attempts plus one final two-draw fallback). -/
theorem findOptimalPlacement_total_bounded (t : String) (ex : List MapLocation)
    (an : Analysis) (b : Bounds) (rs : List ℚ) :
    findOptimalPlacement t ex an b rs = findOptimalPlacement t ex an b (rs.take 102) :=
  (findOptimalPlacement_take_aux t ex an b rs).symm

/-- The analyzer's sampling loop reads exactly one draw per sample. -/
theorem analyzeLoop_take (surf : Surface) (pts : List (ℕ × ℕ)) (rs : List ℚ) :
    analyzeLoop surf pts (rs.take pts.length) = analyzeLoop surf pts rs := by
  induction pts generalizing rs with
  | nil => rfl
  | cons q pts ih =>
    obtain ⟨x, y⟩ := q
    cases rs with
    | nil => rw [List.take_nil]
    | cons a t => simp [analyzeLoop, ih t]

/-- C9: both operations are pure functions of their inputs and the
explicit stream of random draws: whenever two draw lists agree on the
prefix the computation can consume (one draw per grid sample for the
analyzer; at most 102 draws for the selector), the outputs are equal.
In this embedding neither operation can mutate its arguments, and runs
with an identical draw list are literally identical terms. -/
theorem engine_deterministic (surface : Option Surface) (w h : ℕ) (rs1 rs2 : List ℚ)
    (t : String) (ex : List MapLocation) (an : Analysis) (b : Bounds)
    (qs1 qs2 : List ℚ)
    (h1 : rs1.take (samplePts w h).length = rs2.take (samplePts w h).length)
    (h2 : qs1.take 102 = qs2.take 102) :
    analyzeTerrainForPlacement surface w h rs1 =
      analyzeTerrainForPlacement surface w h rs2 ∧
    findOptimalPlacement t ex an b qs1 = findOptimalPlacement t ex an b qs2 := by
  constructor
  · match surface with
    | none => rfl
    | some surf =>
      simp only [analyzeTerrainForPlacement]
      rw [← analyzeLoop_take surf (samplePts w h) rs1,
        ← analyzeLoop_take surf (samplePts w h) rs2, h1]
  · rw [← findOptimalPlacement_take_aux t ex an b qs1,
      ← findOptimalPlacement_take_aux t ex an b qs2, h2]

/-- Witness for C9: two draw lists that differ beyond the consumed
prefix give identical outputs. -/
theorem engine_deterministic_witness :
    ([(1 : ℚ) / 2, 0].take (samplePts 60 60).length =
      [(1 : ℚ) / 2, 1].take (samplePts 60 60).length) ∧
    analyzeTerrainForPlacement (some blueSurface) 60 60 [(1 : ℚ) / 2, 0] =
      analyzeTerrainForPlacement (some blueSurface) 60 60 [(1 : ℚ) / 2, 1] ∧
    findOptimalPlacement "mission" [] ⟨[], []⟩ ⟨1200, 800⟩ [] =
      findOptimalPlacement "mission" [] ⟨[], []⟩ ⟨1200, 800⟩ [] :=
  ⟨rfl,
    engine_deterministic (some blueSurface) 60 60 [(1 : ℚ) / 2, 0] [(1 : ℚ) / 2, 1]
      "mission" [] ⟨[], []⟩ ⟨1200, 800⟩ [] [] rfl rfl⟩

/-- C3, counterexample: on 60×60 bounds — smaller than twice the 50-unit
margin — the boundary claim `50 ≤ x ≤ width − 50` is violated: with zero
draws the first random attempt is accepted and returns (50, 50), and
50 > 60 − 50. -/
theorem placement_bounds_counterexample :
    findOptimalPlacement "mission" [] ⟨[], []⟩ ⟨60, 60⟩ [0, 0] = ⟨50, 50⟩ ∧
    ¬ (findOptimalPlacement "mission" [] ⟨[], []⟩ ⟨60, 60⟩ [0, 0]).x ≤ 60 - 50 := by
  have h : randomAttempts [] ⟨60, 60⟩ 50 [0, 0] =
      randomAttempts [] ⟨60, 60⟩ (49 + 1) [0, 0] := rfl
  have he : findOptimalPlacement "mission" [] ⟨[], []⟩ ⟨60, 60⟩ [0, 0] = ⟨50, 50⟩ := by
    rw [findOptimalPlacement]
    norm_num
    rw [h, randomAttempts_succ]
    norm_num [tooCloseTo, randomDraw]
  exact ⟨he, by rw [he]; norm_num⟩

/-- The head draw of a list of draws in `[0, 1)` is itself in `[0, 1)`
(an exhausted list defaults to the draw 0). -/
theorem headD_range (rs : List ℚ) (hr : ∀ r ∈ rs, 0 ≤ r ∧ r < 1) :
    0 ≤ rs.headD 0 ∧ rs.headD 0 < 1 := by
  cases rs with
  | nil => norm_num
  | cons a t => exact hr a (by simp)

/-- Draw-range hypotheses carry over to the tail of the list. -/
theorem range_tail (rs : List ℚ) (hr : ∀ r ∈ rs, 0 ≤ r ∧ r < 1) :
    ∀ r ∈ rs.tail, 0 ≤ r ∧ r < 1 :=
  fun r h => hr r (List.mem_of_mem_tail h)

/-- A drawn coordinate pair lies within the 50-unit margins whenever the
bounds are at least 100 on each axis and the draws lie in `[0, 1)`. -/
theorem randomDraw_bounds (b : Bounds) (rs : List ℚ)
    (hw : 100 ≤ b.width) (hh : 100 ≤ b.height)
    (hr : ∀ r ∈ rs, 0 ≤ r ∧ r < 1) :
    50 ≤ (randomDraw b rs).x ∧ (randomDraw b rs).x ≤ b.width - 50 ∧
    50 ≤ (randomDraw b rs).y ∧ (randomDraw b rs).y ≤ b.height - 50 := by
  obtain ⟨h1, h2⟩ := headD_range rs hr
  obtain ⟨h3, h4⟩ := headD_range rs.tail (range_tail rs hr)
  refine ⟨?_, ?_, ?_, ?_⟩ <;> simp only [randomDraw] <;> nlinarith

/-- Every exit of the no-terrain loop stays within the margins. -/
theorem randomAttempts_bounds (existing : List MapLocation) (b : Bounds) (fuel : ℕ)
    (rs : List ℚ) (hw : 100 ≤ b.width) (hh : 100 ≤ b.height)
    (hr : ∀ r ∈ rs, 0 ≤ r ∧ r < 1) :
    50 ≤ (randomAttempts existing b fuel rs).x ∧
    (randomAttempts existing b fuel rs).x ≤ b.width - 50 ∧
    50 ≤ (randomAttempts existing b fuel rs).y ∧
    (randomAttempts existing b fuel rs).y ≤ b.height - 50 := by
  induction fuel generalizing rs with
  | zero => exact randomDraw_bounds b rs hw hh hr
  | succ n ih =>
    rw [randomAttempts_succ]
    cases htc : tooCloseTo existing (randomDraw b rs).x (randomDraw b rs).y with
    | true =>
      simp only [if_true]
      exact ih rs.tail.tail (range_tail _ (range_tail _ hr))
    | false =>
      simp only [Bool.false_eq_true, if_false]
      exact randomDraw_bounds b rs hw hh hr

/-- The clamp of source lines 511–512 stays within the margins whenever
the bound is at least 100. -/
theorem clampCoord_bounds (w v : ℚ) (hw : 100 ≤ w) :
    50 ≤ clampCoord 50 (w - 50) v ∧ clampCoord 50 (w - 50) v ≤ w - 50 :=
  ⟨le_max_left _ _, max_le (by linarith) (min_le_left _ _)⟩

/-- Every exit of the terrain-guided loop stays within the margins. -/
theorem placeLoop_bounds (t : String) (ex : List MapLocation) (av : List AvoidRegion)
    (b : Bounds) (areas : List SuitabilityPoint) (rs : List ℚ)
    (hw : 100 ≤ b.width) (hh : 100 ≤ b.height)
    (hr : ∀ r ∈ rs, 0 ≤ r ∧ r < 1) :
    50 ≤ (placeLoop t ex av b areas rs).x ∧
    (placeLoop t ex av b areas rs).x ≤ b.width - 50 ∧
    50 ≤ (placeLoop t ex av b areas rs).y ∧
    (placeLoop t ex av b areas rs).y ≤ b.height - 50 := by
  induction areas with
  | nil => exact randomDraw_bounds b rs hw hh hr
  | cons area rest ih =>
    by_cases hc : (!tooCloseTo ex area.x area.y && !inAvoidAreaAt av area.x area.y &&
        decide (area.score + typeBonus t area.score > 50)) = true
    · simp only [placeLoop, hc, if_true]
      obtain ⟨hx1, hx2⟩ := clampCoord_bounds b.width
        (area.x + (rs.headD 0 - 1 / 2) * 40) hw
      obtain ⟨hy1, hy2⟩ := clampCoord_bounds b.height
        (area.y + (rs.tail.headD 0 - 1 / 2) * 40) hh
      exact ⟨hx1, hx2, hy1, hy2⟩
    · simp only [placeLoop, hc, if_false, Bool.false_eq_true]
      exact ih

/-- C3, amended: whenever the map bounds are at least twice the 50-unit
margin on each axis (`width ≥ 100` and `height ≥ 100`) and the random
draws lie in `[0, 1)` as `Math.random()` guarantees, every coordinate
returned by `findOptimalPlacement` — on the terrain-guided path, the
constrained random fallback and the final unconstrained fallback alike —
satisfies `50 ≤ x ≤ width − 50` and `50 ≤ y ≤ height − 50`. -/
theorem placement_within_margins (t : String) (ex : List MapLocation) (an : Analysis)
    (b : Bounds) (rs : List ℚ) (hw : 100 ≤ b.width) (hh : 100 ≤ b.height)
    (hr : ∀ r ∈ rs, 0 ≤ r ∧ r < 1) :
    50 ≤ (findOptimalPlacement t ex an b rs).x ∧
    (findOptimalPlacement t ex an b rs).x ≤ b.width - 50 ∧
    50 ≤ (findOptimalPlacement t ex an b rs).y ∧
    (findOptimalPlacement t ex an b rs).y ≤ b.height - 50 := by
  by_cases he : an.suitableAreas.length = 0
  · simp only [findOptimalPlacement, he, if_true]
    exact randomAttempts_bounds ex b 50 rs hw hh hr
  · simp only [findOptimalPlacement, he, if_false]
    exact placeLoop_bounds t ex an.avoidAreas b an.suitableAreas rs hw hh hr

/-- Witness for the amended C3 on a concrete 1200×800 map. -/
theorem placement_within_margins_witness :
    ((100 : ℚ) ≤ 1200 ∧ (100 : ℚ) ≤ 800 ∧
      (∀ r ∈ ([0, 0] : List ℚ), 0 ≤ r ∧ r < 1)) ∧
    (50 ≤ (findOptimalPlacement "mission" [] ⟨[], []⟩ ⟨1200, 800⟩ [0, 0]).x ∧
      (findOptimalPlacement "mission" [] ⟨[], []⟩ ⟨1200, 800⟩ [0, 0]).x ≤ 1200 - 50 ∧
      50 ≤ (findOptimalPlacement "mission" [] ⟨[], []⟩ ⟨1200, 800⟩ [0, 0]).y ∧
      (findOptimalPlacement "mission" [] ⟨[], []⟩ ⟨1200, 800⟩ [0, 0]).y ≤ 800 - 50) :=
  ⟨⟨by norm_num, by norm_num, by norm_num⟩,
    placement_within_margins "mission" [] ⟨[], []⟩ ⟨1200, 800⟩ [0, 0] (by norm_num)
      (by norm_num) (by norm_num)⟩

/-- When some candidate in `areas` passes all three acceptance checks,
the terrain-guided loop accepts such a candidate: its grid center
satisfies the spacing and avoidance constraints and its bonus-adjusted
score exceeds 50, and the returned point is that center perturbed by
less than 20 on each axis and clamped into the margins. -/
theorem placeLoop_accept (t : String) (ex : List MapLocation) (av : List AvoidRegion)
    (b : Bounds) (areas : List SuitabilityPoint) (rs : List ℚ)
    (hr : ∀ r ∈ rs, 0 ≤ r ∧ r < 1)
    (hex : ∃ a ∈ areas, tooCloseTo ex a.x a.y = false ∧
      inAvoidAreaAt av a.x a.y = false ∧ a.score + typeBonus t a.score > 50) :
    ∃ a ∈ areas, tooCloseTo ex a.x a.y = false ∧
      inAvoidAreaAt av a.x a.y = false ∧ a.score + typeBonus t a.score > 50 ∧
      ∃ ox oy : ℚ, -20 ≤ ox ∧ ox < 20 ∧ -20 ≤ oy ∧ oy < 20 ∧
        placeLoop t ex av b areas rs =
          ⟨clampCoord 50 (b.width - 50) (a.x + ox),
           clampCoord 50 (b.height - 50) (a.y + oy)⟩ := by
  induction areas with
  | nil =>
    obtain ⟨a, ha, -⟩ := hex
    exact absurd ha (List.not_mem_nil a)
  | cons area rest ih =>
    by_cases hc : (!tooCloseTo ex area.x area.y && !inAvoidAreaAt av area.x area.y &&
        decide (area.score + typeBonus t area.score > 50)) = true
    · have hc' := hc
      simp only [Bool.and_eq_true, Bool.not_eq_true', decide_eq_true_eq] at hc'
      obtain ⟨⟨h1, h2⟩, h3⟩ := hc'
      obtain ⟨hx1, hx2⟩ := headD_range rs hr
      obtain ⟨hy1, hy2⟩ := headD_range rs.tail (range_tail rs hr)
      refine ⟨area, by simp, h1, h2, h3,
        (rs.headD 0 - 1 / 2) * 40, (rs.tail.headD 0 - 1 / 2) * 40,
        by linarith, by linarith, by linarith, by linarith, ?_⟩
      simp only [placeLoop, hc, if_true]
    · have hex' : ∃ a ∈ rest, tooCloseTo ex a.x a.y = false ∧
          inAvoidAreaAt av a.x a.y = false ∧ a.score + typeBonus t a.score > 50 := by
        obtain ⟨a, ha, p1, p2, p3⟩ := hex
        rcases List.mem_cons.mp ha with rfl | hmem
        · exact absurd (by simp [p1, p2, p3]) hc
        · exact ⟨a, hmem, p1, p2, p3⟩
      obtain ⟨a, ha, p1, p2, p3, ox, oy, b1, b2, b3, b4, heq⟩ := ih hex'
      refine ⟨a, List.mem_cons_of_mem _ ha, p1, p2, p3, ox, oy, b1, b2, b3, b4, ?_⟩
      simp only [placeLoop, hc, if_false, Bool.false_eq_true]
      exact heq

/-- C1, counterexample: with one suitable candidate at (200, 200) that
passes every constraint and one avoid region centered at (240, 200) with
radius 30, a jitter draw of 99/100 moves the returned coordinate to
(219.6, 200), which lies strictly inside the avoid region's disc
(distance 20.4 < 30): the returned coordinate itself does not satisfy
the avoidance constraint the claim asserts. -/
theorem placement_constraints_counterexample :
    (tooCloseTo [] 200 200 = false ∧
      inAvoidAreaAt [⟨240, 200, 30⟩] 200 200 = false ∧
      (100 : ℚ) + typeBonus "resource" 100 > 50) ∧
    findOptimalPlacement "resource" [] ⟨[⟨200, 200, 100⟩], [⟨240, 200, 30⟩]⟩
        ⟨1200, 800⟩ [99 / 100, 1 / 2] = ⟨1098 / 5, 200⟩ ∧
    sqrtLt (distSq 240 200 (1098 / 5) 200) 30 = true := by
  have hb : ("resource" : String) ≠ "npc" := by decide
  refine ⟨⟨rfl, ?_, ?_⟩, ?_, ?_⟩
  · norm_num [inAvoidAreaAt, sqrtLt, distSq]
  · simp [typeBonus]
    norm_num
  · norm_num [findOptimalPlacement, placeLoop, typeBonus, tooCloseTo, inAvoidAreaAt,
      sqrtLt, distSq, clampCoord, hb]
  · norm_num [sqrtLt, distSq]

/-- C1, amended: when `suitableAreas` contains a candidate passing all
constraints, the ACCEPTED CANDIDATE'S CENTER — not the returned
coordinate itself — is at Euclidean distance ≥ 80 from every pre-existing
location and outside every avoid region's disc; the returned coordinate
is that center perturbed by less than 20 per axis
(`(Math.random() − 0.5) * 40`) and clamped into the margins, and so can
itself re-enter an avoid region or come within 80 units of an existing
location. -/
theorem placement_candidate_respects_constraints (t : String) (ex : List MapLocation)
    (an : Analysis) (b : Bounds) (rs : List ℚ)
    (hr : ∀ r ∈ rs, 0 ≤ r ∧ r < 1)
    (hex : ∃ a ∈ an.suitableAreas, tooCloseTo ex a.x a.y = false ∧
      inAvoidAreaAt an.avoidAreas a.x a.y = false ∧
      a.score + typeBonus t a.score > 50) :
    ∃ a ∈ an.suitableAreas,
      (∀ loc ∈ ex, sqrtLt (distSq loc.x loc.y a.x a.y) 80 = false) ∧
      (∀ reg ∈ an.avoidAreas, sqrtLt (distSq reg.x reg.y a.x a.y) reg.radius = false) ∧
      ∃ ox oy : ℚ, -20 ≤ ox ∧ ox < 20 ∧ -20 ≤ oy ∧ oy < 20 ∧
        findOptimalPlacement t ex an b rs =
          ⟨clampCoord 50 (b.width - 50) (a.x + ox),
           clampCoord 50 (b.height - 50) (a.y + oy)⟩ := by
  have hne : ¬ an.suitableAreas.length = 0 := by
    obtain ⟨a, ha, -⟩ := hex
    intro h0
    rw [List.length_eq_zero] at h0
    rw [h0] at ha
    exact absurd ha (List.not_mem_nil a)
  obtain ⟨a, ha, p1, p2, p3, ox, oy, b1, b2, b3, b4, heq⟩ :=
    placeLoop_accept t ex an.avoidAreas b an.suitableAreas rs hr hex
  refine ⟨a, ha, ?_, ?_, ox, oy, b1, b2, b3, b4, ?_⟩
  · intro loc hl
    simp only [tooCloseTo, List.any_eq_false] at p1
    simpa using p1 loc hl
  · intro reg hg
    simp only [inAvoidAreaAt, List.any_eq_false] at p2
    simpa using p2 reg hg
  · rw [findOptimalPlacement, if_neg hne]
    exact heq

/-- Witness for the amended C1: one passing candidate at (200, 200) with
an avoid region far away at (400, 200). -/
theorem placement_candidate_respects_constraints_witness :
    ((∀ r ∈ ([1 / 2, 1 / 2] : List ℚ), 0 ≤ r ∧ r < 1) ∧
      (∃ a ∈ (Analysis.mk [⟨200, 200, 100⟩] [⟨400, 200, 30⟩]).suitableAreas,
        tooCloseTo [] a.x a.y = false ∧
        inAvoidAreaAt (Analysis.mk [⟨200, 200, 100⟩] [⟨400, 200, 30⟩]).avoidAreas
          a.x a.y = false ∧
        a.score + typeBonus "resource" a.score > 50)) ∧
    (∃ a ∈ (Analysis.mk [⟨200, 200, 100⟩] [⟨400, 200, 30⟩]).suitableAreas,
      (∀ loc ∈ ([] : List MapLocation),
        sqrtLt (distSq loc.x loc.y a.x a.y) 80 = false) ∧
      (∀ reg ∈ (Analysis.mk [⟨200, 200, 100⟩] [⟨400, 200, 30⟩]).avoidAreas,
        sqrtLt (distSq reg.x reg.y a.x a.y) reg.radius = false) ∧
      ∃ ox oy : ℚ, -20 ≤ ox ∧ ox < 20 ∧ -20 ≤ oy ∧ oy < 20 ∧
        findOptimalPlacement "resource" [] (Analysis.mk [⟨200, 200, 100⟩]
            [⟨400, 200, 30⟩]) ⟨1200, 800⟩ [1 / 2, 1 / 2] =
          ⟨clampCoord 50 (1200 - 50) (a.x + ox), clampCoord 50 (800 - 50) (a.y + oy)⟩) :=
  ⟨⟨by norm_num,
    ⟨⟨200, 200, 100⟩, by simp, rfl, by norm_num [inAvoidAreaAt, sqrtLt, distSq],
      by simp [typeBonus]; norm_num⟩⟩,
    placement_candidate_respects_constraints "resource" []
      (Analysis.mk [⟨200, 200, 100⟩] [⟨400, 200, 30⟩]) ⟨1200, 800⟩ [1 / 2, 1 / 2]
      (by norm_num)
      ⟨⟨200, 200, 100⟩, by simp, rfl, by norm_num [inAvoidAreaAt, sqrtLt, distSq],
        by simp [typeBonus]; norm_num⟩⟩
